import Mathlib

/-!
Verification model of the EZUIKit player record plugin
(`EZUIKit-player-plugin-record`).  The repository ships a
declarations-only TypeScript interface (`src/dist/types/index.d.ts`);
its behaviour is modelled here from the specification and checked
against the claims about the stream-recording engine: the fixed-size
vendor stream head codec, the append-only storage buffer, and the
recording session state machine exposed by the `Record` facade.

Bytes are modelled as `Nat` values and byte blobs as `List Nat`.
-/

/-- Error taxonomy of the recording engine (spec §7). -/
inductive RecordError
  | InvalidFormatError
  | MalformedHeadError
  | AlreadyActiveError
  | NotRecordingError
  | BufferSealedError
  | AlreadyDrainedError
  | NotSealedError
  | ExportFailure
  deriving DecidableEq, Repr

/-- The supported stream container formats (`'flv' | 'ps' | 'rtp' | 'ts'`
from `Record$1.getHKHead` in `index.d.ts`). -/
def supportedFormats : List String := ["flv", "ps", "rtp", "ts"]

/-- The supported video codecs (`'h264' | 'h265'`). -/
def supportedVideoCodecs : List String := ["h264", "h265"]

/-- The supported audio codecs (`'aac' | 'g711_a' | 'g711_u' | 'g722'`). -/
def supportedAudioCodecs : List String := ["aac", "g711_a", "g711_u", "g722"]

/-- The supported audio sample rates
(`'8000' | '16000' | '32000' | '44100' | '48000'`). -/
def supportedSampleRates : List String := ["8000", "16000", "32000", "44100", "48000"]

/-- Modelled from the spec: vendor code for a container format; the
implementation of `getHKHead` is not shipped, only its declaration.
Unknown formats map to `none`. -/
def formatCode (t : String) : Option Nat :=
  if t = "flv" then some 1
  else if t = "ps" then some 2
  else if t = "rtp" then some 3
  else if t = "ts" then some 4
  else none

/-- Modelled from the spec: vendor code for a video codec. -/
def videoCodecCode (v : String) : Option Nat :=
  if v = "h264" then some 1
  else if v = "h265" then some 2
  else none

/-- Modelled from the spec: vendor code for an audio codec. -/
def audioCodecCode (a : String) : Option Nat :=
  if a = "aac" then some 1
  else if a = "g711_a" then some 2
  else if a = "g711_u" then some 3
  else if a = "g722" then some 4
  else none

/-- Modelled from the spec: vendor code for an audio sample rate. -/
def sampleRateCode (r : String) : Option Nat :=
  if r = "8000" then some 1
  else if r = "16000" then some 2
  else if r = "32000" then some 3
  else if r = "44100" then some 4
  else if r = "48000" then some 5
  else none

/-- Inverse of `formatCode`. -/
def decodeFormat (c : Nat) : Option String :=
  if c = 1 then some "flv"
  else if c = 2 then some "ps"
  else if c = 3 then some "rtp"
  else if c = 4 then some "ts"
  else none

/-- Inverse of `videoCodecCode`. -/
def decodeVideoCodec (c : Nat) : Option String :=
  if c = 1 then some "h264"
  else if c = 2 then some "h265"
  else none

/-- Inverse of `audioCodecCode`. -/
def decodeAudioCodec (c : Nat) : Option String :=
  if c = 1 then some "aac"
  else if c = 2 then some "g711_a"
  else if c = 3 then some "g711_u"
  else if c = 4 then some "g722"
  else none

/-- Inverse of `sampleRateCode`. -/
def decodeSampleRate (c : Nat) : Option String :=
  if c = 1 then some "8000"
  else if c = 2 then some "16000"
  else if c = 3 then some "32000"
  else if c = 4 then some "44100"
  else if c = 5 then some "48000"
  else none

/-- The vendor magic prefix of a stream head; the usage example in
`index.d.ts` starts the head with bytes `[73, 77, 75, 72, ...]`. -/
def headMagic : List Nat := [73, 77, 75, 72]

namespace HeadCodec

/-- Modelled from the spec: `HeadCodec.build` (the body of
`Record$1.getHKHead` is not shipped).  Validates each enumerated input
against the supported set; fails with `InvalidFormatError` if any
value is outside the supported enumeration; otherwise returns the
40-byte encoded record (magic, four vendor field codes, reserved
padding). -/
def build (t v a r : String) : Except RecordError (List Nat) :=
  match formatCode t, videoCodecCode v, audioCodecCode a, sampleRateCode r with
  | some ft, some vc, some ac, some rc =>
      .ok (headMagic ++ ft :: vc :: ac :: rc :: List.replicate 32 0)
  | _, _, _, _ => .error .InvalidFormatError

/-- Modelled from the spec: `HeadCodec.validate`.  Fails with
`MalformedHeadError` if the byte length is not 40 or any decoded field
value is not in its enumeration; otherwise returns the decoded
enumerated values. -/
def validate (bytes : List Nat) :
    Except RecordError (String × String × String × String) :=
  if bytes.length = 40 then
    match bytes with
    | _ :: _ :: _ :: _ :: ft :: vc :: ac :: rc :: _ =>
        match decodeFormat ft, decodeVideoCodec vc,
              decodeAudioCodec ac, decodeSampleRate rc with
        | some t, some v, some a, some r => .ok (t, v, a, r)
        | _, _, _, _ => .error .MalformedHeadError
    | _ => .error .MalformedHeadError
  else .error .MalformedHeadError

end HeadCodec

/-- Modelled from the spec: the append-only storage buffer behind
`Record$1._oStorageManager` (private, body not shipped): an ordered
sequence of byte chunks, a total-length counter, a `sealed` flag and a
`drained` flag. -/
structure StorageBuffer where
  chunks : List (List Nat)
  totalLength : Nat
  sealed : Bool
  drained : Bool
  deriving DecidableEq, Repr

namespace StorageBuffer

/-- A fresh, empty, unsealed buffer. -/
def new : StorageBuffer := ⟨[], 0, false, false⟩

/-- Modelled from the spec: `append` fails with `BufferSealedError` if
the buffer is sealed (leaving it unchanged); otherwise appends the
chunk in arrival order and returns the new total length. -/
def append (b : StorageBuffer) (c : List Nat) :
    StorageBuffer × Except RecordError Nat :=
  if b.sealed then (b, .error .BufferSealedError)
  else
    let b' : StorageBuffer :=
      { b with chunks := b.chunks ++ [c], totalLength := b.totalLength + c.length }
    (b', .ok b'.totalLength)

/-- Modelled from the spec: `seal` is idempotent and sets `sealed`. -/
def «seal» (b : StorageBuffer) : StorageBuffer := { b with sealed := true }

/-- Modelled from the spec: `drain` requires the buffer to be sealed
(`NotSealedError` otherwise), fails with `AlreadyDrainedError` on a
second drain, and otherwise consumes the buffer, returning the
concatenation of all chunks in arrival order. -/
def drain (b : StorageBuffer) :
    StorageBuffer × Except RecordError (List Nat) :=
  if b.sealed = false then (b, .error .NotSealedError)
  else if b.drained then (b, .error .AlreadyDrainedError)
  else ({ b with chunks := [], drained := true }, .ok b.chunks.flatten)

/-- Sequential appends, stopping at the first failure. -/
def appendAllE (b : StorageBuffer) : List (List Nat) → Except RecordError StorageBuffer
  | [] => .ok b
  | c :: cs =>
      match b.append c with
      | (b', .ok _) => b'.appendAllE cs
      | (_, .error e) => .error e

end StorageBuffer

/-- Observable side effects of a facade operation: the completion
callback firing with `(fileName, fileArtifact)`, or an out-of-band
warning report (spec §7). -/
inductive Event
  | callbackInvoked (fileName : String) (artifact : List Nat)
  | warning (msg : String)
  deriving DecidableEq, Repr

/-- Whether an event is a completion-callback invocation. -/
def Event.isCallback : Event → Bool
  | .callbackInvoked _ _ => true
  | .warning _ => false

/-- Session states of the recording state machine (spec §4.3), plus
the terminal released state reached by `destroy`. -/
inductive SessionState
  | Idle
  | Recording
  | Finished
  | Failed
  | Released
  deriving DecidableEq, Repr

/-- Modelled from the spec: the state of the `Record` facade
(`Record$1` in `index.d.ts`; only its declaration is shipped).
`szStorageUUID` is the public session-identifier field, `buffer`
stands for the private `_oStorageManager` storage, and `callback`
records the registered completion callback (identified by a tag). -/
structure RecordState where
  szStorageUUID : Option String
  buffer : StorageBuffer
  sessionState : SessionState
  callback : Option String
  fileName : Option String
  downloadRecord : Bool
  deriving DecidableEq, Repr

/-- Result of one facade operation: the successor state, the
operation's outcome, and the events it emitted. -/
structure OpResult (α : Type) where
  state : RecordState
  result : Except RecordError α
  events : List Event
  deriving Repr

/-- Default file name used when the caller supplies none; the source
documents it as a timestamp (`new Date().getTime()`), modelled as an
abstract constant. -/
def defaultRecordName : String := "timestamp"

namespace Record

/-- Modelled from the spec: the `Record` constructor
(`new Record({downloadRecord})`): no session, empty storage, idle. -/
def init (downloadRecord : Bool) : RecordState :=
  { szStorageUUID := none
  , buffer := StorageBuffer.new
  , sessionState := .Idle
  , callback := none
  , fileName := none
  , downloadRecord := downloadRecord }

/-- Modelled from the spec: `Record$1.startRecord` (body not shipped).
Fails with `AlreadyActiveError` on a non-idle session, validates the
supplied head via `HeadCodec.validate`, generates the session UUID
(passed in, spec §9), initializes an empty storage buffer and stores
the callback and file name. -/
def startRecord (r : RecordState) (head : List Nat) (name : Option String)
    (cb : Option String) (uuid : String) : OpResult String :=
  if r.sessionState = .Idle then
    match HeadCodec.validate head with
    | .ok _ =>
        { state :=
            { r with szStorageUUID := some uuid
                   , buffer := StorageBuffer.new
                   , sessionState := .Recording
                   , callback := cb
                   , fileName := name }
        , result := .ok uuid
        , events := [] }
    | .error e => { state := r, result := .error e, events := [] }
  else { state := r, result := .error .AlreadyActiveError, events := [] }

/-- Modelled from the spec: `Record$1.inputData` (body not shipped).
While recording, appends the chunk to the storage buffer; an append
failure is reported as a warning and escalated to `Failed`.  With no
active session the chunk is discarded with a warning (not fatal). -/
def inputData (r : RecordState) (chunk : List Nat) : OpResult Unit :=
  if r.sessionState = .Recording then
    match r.buffer.append chunk with
    | (b', .ok _) =>
        { state := { r with buffer := b' }, result := .ok (), events := [] }
    | (b', .error _) =>
        { state := { r with buffer := b', sessionState := .Failed
                          , szStorageUUID := none }
        , result := .ok ()
        , events := [.warning "append failed"] }
  else
    { state := r, result := .ok (), events := [.warning "no active session"] }

/-- Modelled from the spec: `Record$1.stopRecord` (body not shipped).
Fails with `NotRecordingError` unless recording; otherwise seals and
drains the buffer, synthesizes the named artifact, invokes the
completion callback (when one is registered) exactly once with
`(fileName, fileArtifact)`, and transitions to `Finished`. -/
def stopRecord (r : RecordState) : OpResult (String × List Nat) :=
  if r.sessionState = .Recording then
    match r.buffer.seal.drain with
    | (b', .ok artifact) =>
        let fname := r.fileName.getD defaultRecordName
        { state :=
            { r with buffer := b'
                   , sessionState := .Finished
                   , szStorageUUID := none }
        , result := .ok (fname, artifact)
        , events :=
            match r.callback with
            | some _ => [.callbackInvoked fname artifact]
            | none => [] }
    | (b', .error e) =>
        { state :=
            { r with buffer := b'
                   , sessionState := .Failed
                   , szStorageUUID := none }
        , result := .error e
        , events := [] }
  else { state := r, result := .error .NotRecordingError, events := [] }

/-- Modelled from the spec: `Record$1.destroy` (body not shipped).
Callable from any state; releases the buffer, clears the callback and
session identifier, and lands in the terminal released state. -/
def destroy (r : RecordState) : RecordState :=
  { r with szStorageUUID := none
         , buffer := StorageBuffer.new
         , sessionState := .Released
         , callback := none }

/-- Feed a list of chunks through `inputData`, collecting the
intermediate events. -/
def feedAll (r : RecordState) : List (List Nat) → RecordState × List Event
  | [] => (r, [])
  | c :: cs =>
      let o := inputData r c
      let rest := feedAll o.state cs
      (rest.1, o.events ++ rest.2)

end Record

/-- One public facade operation, for reasoning about arbitrary call
sequences. -/
inductive RecOp
  | start (head : List Nat) (name : Option String) (cb : Option String) (uuid : String)
  | input (chunk : List Nat)
  | stop
  | destroy

/-- Apply one public operation to the facade state. -/
def RecordState.applyOp (r : RecordState) : RecOp → RecordState
  | .start h n cb u => (Record.startRecord r h n cb u).state
  | .input c => (Record.inputData r c).state
  | .stop => (Record.stopRecord r).state
  | .destroy => Record.destroy r

/-- Structural invariant of the facade: the public `szStorageUUID`
field is set exactly while a recording session is active, and while
recording the buffer is neither sealed nor drained. -/
def RecordInv (r : RecordState) : Prop :=
  (r.szStorageUUID.isSome ↔ r.sessionState = .Recording)
  ∧ (r.sessionState = .Recording → r.buffer.sealed = false ∧ r.buffer.drained = false)

/-- A concrete valid 40-byte stream head (format `ps`, video `h264`,
audio `aac`, sample rate `44100`), used as a test vector. -/
def sampleHead : List Nat := headMagic ++ [2, 1, 1, 4] ++ List.replicate 32 0

/-- A concrete facade state with an active recording session and a
registered completion callback, used as a test vector. -/
def sampleRecordingState : RecordState :=
  (Record.startRecord (Record.init true) sampleHead (some "rec") (some "cb") "uuid-1").state

namespace StorageBuffer

/-- Appending to an unsealed buffer succeeds, extending the chunk
list and the total length. -/
theorem append_unsealed (b : StorageBuffer) (c : List Nat) (h : b.sealed = false) :
    b.append c =
      (⟨b.chunks ++ [c], b.totalLength + c.length, false, b.drained⟩,
       .ok (b.totalLength + c.length)) := by
  simp [append, h]

/-- Sequential appends to an unsealed buffer all succeed and
accumulate the chunks in arrival order. -/
theorem appendAllE_unsealed (cs : List (List Nat)) :
    ∀ b : StorageBuffer, b.sealed = false →
      b.appendAllE cs =
        .ok ⟨b.chunks ++ cs, b.totalLength + (cs.map List.length).sum, false, b.drained⟩ := by
  induction cs with
  | nil =>
      intro b h
      cases b with
      | mk chunks totalLength sealed drained =>
          simp at h
          simp [appendAllE, h]
  | cons c cs ih =>
      intro b h
      rw [appendAllE, append_unsealed b c h]
      dsimp only
      rw [ih ⟨b.chunks ++ [c], b.totalLength + c.length, false, b.drained⟩ rfl]
      simp [Nat.add_assoc]

end StorageBuffer

/-- C2: for every StorageBuffer and every sequence of appended chunks,
`drain()` after `seal()` returns the byte-wise concatenation of the
chunks in exact append (arrival) order, and the returned total length
equals the sum of the individual chunk lengths. -/
theorem spec_C2_drain_is_ordered_concat (cs : List (List Nat)) (b : StorageBuffer)
    (h : StorageBuffer.new.appendAllE cs = .ok b) :
    (b.seal.drain).2 = .ok cs.flatten
    ∧ b.totalLength = (cs.map List.length).sum
    ∧ cs.flatten.length = (cs.map List.length).sum := by
  have hb := StorageBuffer.appendAllE_unsealed cs StorageBuffer.new rfl
  rw [h] at hb
  simp only [StorageBuffer.new, List.nil_append, Nat.zero_add, Except.ok.injEq] at hb
  subst hb
  refine ⟨?_, rfl, List.length_flatten cs⟩
  simp [StorageBuffer.seal, StorageBuffer.drain]

/-- C2 witness: the §8 scenario, chunks `[1,2]` then `[3]`. -/
theorem spec_C2_drain_is_ordered_concat_witness :
    ((StorageBuffer.mk [[1, 2], [3]] 3 false false).seal.drain).2
        = .ok ([[1, 2], [3]] : List (List Nat)).flatten
    ∧ (StorageBuffer.mk [[1, 2], [3]] 3 false false).totalLength
        = (([[1, 2], [3]] : List (List Nat)).map List.length).sum
    ∧ (([[1, 2], [3]] : List (List Nat)).flatten).length
        = (([[1, 2], [3]] : List (List Nat)).map List.length).sum :=
  spec_C2_drain_is_ordered_concat [[1, 2], [3]]
    (StorageBuffer.mk [[1, 2], [3]] 3 false false) rfl

/-- C4: after `seal()`, every append fails with `BufferSealedError`
and leaves the buffer (chunks and total length) exactly unchanged;
after one successful `drain()`, every further drain fails with
`AlreadyDrainedError` (again leaving the buffer unchanged). -/
theorem spec_C4_sealed_append_and_double_drain
    (b : StorageBuffer) (c d : List Nat) (b' : StorageBuffer) :
    b.seal.append c = (b.seal, .error RecordError.BufferSealedError)
    ∧ (b.sealed = true → b.append c = (b, .error RecordError.BufferSealedError))
    ∧ (b.drain = (b', .ok d) → b'.drain = (b', .error RecordError.AlreadyDrainedError)) := by
  refine ⟨?_, ?_, ?_⟩
  · simp [StorageBuffer.seal, StorageBuffer.append]
  · intro hs
    simp [StorageBuffer.append, hs]
  · intro h
    by_cases hs : b.sealed = false
    · simp [StorageBuffer.drain, hs] at h
    · by_cases hd : b.drained
      · simp [StorageBuffer.drain, hs, hd] at h
      · have hs' : b.sealed = true := by
          cases hb : b.sealed
          · exact absurd hb hs
          · rfl
        simp only [StorageBuffer.drain, hs', hd, Bool.true_eq_false, if_false,
          ite_false] at h
        rw [Prod.ext_iff] at h
        obtain ⟨h1, _⟩ := h
        subst h1
        simp [StorageBuffer.drain, hs']

/-- C4 witness: a concrete sealed buffer and a concrete drained buffer,
with the hypotheses of the inner implications discharged. -/
theorem spec_C4_sealed_append_and_double_drain_witness :
    (StorageBuffer.mk [[5]] 1 true false).seal.append [0]
        = ((StorageBuffer.mk [[5]] 1 true false).seal, .error RecordError.BufferSealedError)
    ∧ (StorageBuffer.mk [[5]] 1 true false).append [0]
        = (StorageBuffer.mk [[5]] 1 true false, .error RecordError.BufferSealedError)
    ∧ (StorageBuffer.mk [] 1 true true).drain
        = (StorageBuffer.mk [] 1 true true, .error RecordError.AlreadyDrainedError) := by
  obtain ⟨h1, h2, h3⟩ := spec_C4_sealed_append_and_double_drain
    (StorageBuffer.mk [[5]] 1 true false) [0] [5] (StorageBuffer.mk [] 1 true true)
  exact ⟨h1, h2 rfl, h3 rfl⟩

/-- Encoding a supported format is invertible. -/
theorem format_roundtrip (t : String) (ht : t ∈ supportedFormats) :
    ∃ c, formatCode t = some c ∧ decodeFormat c = some t := by
  fin_cases ht
  · exact ⟨1, rfl, rfl⟩
  · exact ⟨2, rfl, rfl⟩
  · exact ⟨3, rfl, rfl⟩
  · exact ⟨4, rfl, rfl⟩

/-- Encoding a supported video codec is invertible. -/
theorem videoCodec_roundtrip (v : String) (hv : v ∈ supportedVideoCodecs) :
    ∃ c, videoCodecCode v = some c ∧ decodeVideoCodec c = some v := by
  fin_cases hv
  · exact ⟨1, rfl, rfl⟩
  · exact ⟨2, rfl, rfl⟩

/-- Encoding a supported audio codec is invertible. -/
theorem audioCodec_roundtrip (a : String) (ha : a ∈ supportedAudioCodecs) :
    ∃ c, audioCodecCode a = some c ∧ decodeAudioCodec c = some a := by
  fin_cases ha
  · exact ⟨1, rfl, rfl⟩
  · exact ⟨2, rfl, rfl⟩
  · exact ⟨3, rfl, rfl⟩
  · exact ⟨4, rfl, rfl⟩

/-- Encoding a supported sample rate is invertible. -/
theorem sampleRate_roundtrip (r : String) (hr : r ∈ supportedSampleRates) :
    ∃ c, sampleRateCode r = some c ∧ decodeSampleRate c = some r := by
  fin_cases hr
  · exact ⟨1, rfl, rfl⟩
  · exact ⟨2, rfl, rfl⟩
  · exact ⟨3, rfl, rfl⟩
  · exact ⟨4, rfl, rfl⟩
  · exact ⟨5, rfl, rfl⟩

/-- C3: for every supported tuple (format, videoCodec, audioCodec,
audioSampleRate), building a head and then validating the built bytes
round-trips to the identical enumerated field values, and the encoded
head is always exactly 40 bytes long. -/
theorem spec_C3_head_build_validate_roundtrip (t v a r : String)
    (ht : t ∈ supportedFormats) (hv : v ∈ supportedVideoCodecs)
    (ha : a ∈ supportedAudioCodecs) (hr : r ∈ supportedSampleRates) :
    ∃ bytes, HeadCodec.build t v a r = .ok bytes
      ∧ bytes.length = 40
      ∧ HeadCodec.validate bytes = .ok (t, v, a, r) := by
  obtain ⟨ft, hft, hft'⟩ := format_roundtrip t ht
  obtain ⟨vc, hvc, hvc'⟩ := videoCodec_roundtrip v hv
  obtain ⟨ac, hac, hac'⟩ := audioCodec_roundtrip a ha
  obtain ⟨rc, hrc, hrc'⟩ := sampleRate_roundtrip r hr
  refine ⟨headMagic ++ ft :: vc :: ac :: rc :: List.replicate 32 0, ?_, ?_, ?_⟩
  · simp [HeadCodec.build, hft, hvc, hac, hrc]
  · simp [headMagic]
  · simp [HeadCodec.validate, headMagic, hft', hvc', hac', hrc']

/-- C3 witness: the tuple (ps, h264, aac, 44100) from the §8 scenario. -/
theorem spec_C3_head_build_validate_roundtrip_witness :
    ∃ bytes, HeadCodec.build "ps" "h264" "aac" "44100" = .ok bytes
      ∧ bytes.length = 40
      ∧ HeadCodec.validate bytes = .ok ("ps", "h264", "aac", "44100") :=
  spec_C3_head_build_validate_roundtrip "ps" "h264" "aac" "44100"
    (by decide) (by decide) (by decide) (by decide)

/-- An unsupported format maps to no vendor code. -/
theorem formatCode_eq_none (t : String) (h : t ∉ supportedFormats) :
    formatCode t = none := by
  simp only [supportedFormats, List.mem_cons, List.not_mem_nil, or_false, not_or] at h
  obtain ⟨h1, h2, h3, h4⟩ := h
  simp [formatCode, h1, h2, h3, h4]

/-- An unsupported video codec maps to no vendor code. -/
theorem videoCodecCode_eq_none (v : String) (h : v ∉ supportedVideoCodecs) :
    videoCodecCode v = none := by
  simp only [supportedVideoCodecs, List.mem_cons, List.not_mem_nil, or_false, not_or] at h
  obtain ⟨h1, h2⟩ := h
  simp [videoCodecCode, h1, h2]

/-- An unsupported audio codec maps to no vendor code. -/
theorem audioCodecCode_eq_none (a : String) (h : a ∉ supportedAudioCodecs) :
    audioCodecCode a = none := by
  simp only [supportedAudioCodecs, List.mem_cons, List.not_mem_nil, or_false, not_or] at h
  obtain ⟨h1, h2, h3, h4⟩ := h
  simp [audioCodecCode, h1, h2, h3, h4]

/-- An unsupported sample rate maps to no vendor code. -/
theorem sampleRateCode_eq_none (r : String) (h : r ∉ supportedSampleRates) :
    sampleRateCode r = none := by
  simp only [supportedSampleRates, List.mem_cons, List.not_mem_nil, or_false, not_or] at h
  obtain ⟨h1, h2, h3, h4, h5⟩ := h
  simp [sampleRateCode, h1, h2, h3, h4, h5]

/-- C6: for every input tuple containing a codec, format, or
sample-rate value outside the supported enumerations, head
construction fails with `InvalidFormatError` and never returns a head. -/
theorem spec_C6_unsupported_tuple_rejected (t v a r : String)
    (h : t ∉ supportedFormats ∨ v ∉ supportedVideoCodecs
         ∨ a ∉ supportedAudioCodecs ∨ r ∉ supportedSampleRates) :
    HeadCodec.build t v a r = .error RecordError.InvalidFormatError := by
  unfold HeadCodec.build
  rcases h with h | h | h | h
  · rw [formatCode_eq_none t h]
  · rw [videoCodecCode_eq_none v h]
    cases formatCode t <;> cases audioCodecCode a <;> cases sampleRateCode r <;> rfl
  · rw [audioCodecCode_eq_none a h]
    cases formatCode t <;> cases videoCodecCode v <;> cases sampleRateCode r <;> rfl
  · rw [sampleRateCode_eq_none r h]
    cases formatCode t <;> cases videoCodecCode v <;> cases audioCodecCode a <;> rfl

/-- C6 witness: the unsupported format string `avi` is rejected. -/
theorem spec_C6_unsupported_tuple_rejected_witness :
    HeadCodec.build "avi" "h264" "aac" "8000" = .error RecordError.InvalidFormatError :=
  spec_C6_unsupported_tuple_rejected "avi" "h264" "aac" "8000" (Or.inl (by decide))

/-- Feeding chunks while recording into an unsealed buffer appends
them all in order, emits no events, and stays in `Recording`. -/
theorem feedAll_recording (cs : List (List Nat)) :
    ∀ r : RecordState, r.sessionState = .Recording → r.buffer.sealed = false →
      Record.feedAll r cs =
        ({ r with buffer :=
            ⟨r.buffer.chunks ++ cs,
             r.buffer.totalLength + (cs.map List.length).sum, false,
             r.buffer.drained⟩ }, []) := by
  induction cs with
  | nil =>
      intro r hrec hseal
      cases r with
      | mk uuid buf st cb fn dl =>
          cases buf with
          | mk ch tl sl dr =>
              simp only at hseal
              subst hseal
              simp [Record.feedAll]
  | cons c cs ih =>
      intro r hrec hseal
      rw [Record.feedAll]
      have hin : Record.inputData r c =
          { state := { r with buffer :=
              ⟨r.buffer.chunks ++ [c], r.buffer.totalLength + c.length, false,
               r.buffer.drained⟩ }
          , result := .ok ()
          , events := [] } := by
        rw [Record.inputData]
        rw [StorageBuffer.append_unsealed r.buffer c hseal]
        simp [hrec]
      rw [hin]
      dsimp only
      rw [ih { r with buffer :=
            ⟨r.buffer.chunks ++ [c], r.buffer.totalLength + c.length, false,
             r.buffer.drained⟩ } hrec rfl]
      simp [Nat.add_assoc]

/-- C1: startRecord, then N inputData calls, then stopRecord invokes
the completion callback exactly once, with an artifact whose byte
length is the sum of the lengths of the N chunks (no loss, no
duplication). -/
theorem spec_C1_record_run_callback_once (dl : Bool) (head : List Nat)
    (name : Option String) (cb uuid : String) (cs : List (List Nat))
    (hd : String × String × String × String)
    (hok : HeadCodec.validate head = .ok hd) :
    (Record.startRecord (Record.init dl) head name (some cb) uuid).events
      ++ (Record.feedAll (Record.startRecord (Record.init dl) head name (some cb) uuid).state cs).2
      ++ (Record.stopRecord
            (Record.feedAll (Record.startRecord (Record.init dl) head name (some cb) uuid).state cs).1).events
      = [Event.callbackInvoked (name.getD defaultRecordName) cs.flatten]
    ∧ (Record.stopRecord
         (Record.feedAll (Record.startRecord (Record.init dl) head name (some cb) uuid).state cs).1).result
      = .ok (name.getD defaultRecordName, cs.flatten)
    ∧ cs.flatten.length = (cs.map List.length).sum := by
  have h1 : Record.startRecord (Record.init dl) head name (some cb) uuid =
      { state :=
          { szStorageUUID := some uuid
          , buffer := StorageBuffer.new
          , sessionState := .Recording
          , callback := some cb
          , fileName := name
          , downloadRecord := dl }
      , result := .ok uuid
      , events := [] } := by
    simp [Record.startRecord, Record.init, hok]
  rw [h1]
  dsimp only
  rw [feedAll_recording cs _ rfl rfl]
  dsimp only
  have h2 : Record.stopRecord
      { szStorageUUID := some uuid
      , buffer := ⟨StorageBuffer.new.chunks ++ cs,
          StorageBuffer.new.totalLength + (cs.map List.length).sum, false,
          StorageBuffer.new.drained⟩
      , sessionState := .Recording
      , callback := some cb
      , fileName := name
      , downloadRecord := dl } =
      { state :=
          { szStorageUUID := none
          , buffer := ⟨[], (cs.map List.length).sum, true, true⟩
          , sessionState := .Finished
          , callback := some cb
          , fileName := name
          , downloadRecord := dl }
      , result := .ok (name.getD defaultRecordName, cs.flatten)
      , events := [.callbackInvoked (name.getD defaultRecordName) cs.flatten] } := by
    simp [Record.stopRecord, StorageBuffer.seal, StorageBuffer.drain, StorageBuffer.new]
  rw [h2]
  exact ⟨rfl, rfl, List.length_flatten cs⟩

/-- C1 witness: head (ps, h264, aac, 44100), chunks `[1,2]` and `[3]`
(the §8 scenario). -/
theorem spec_C1_record_run_callback_once_witness :
    (Record.startRecord (Record.init true) sampleHead (some "rec") (some "cb") "u").events
      ++ (Record.feedAll (Record.startRecord (Record.init true) sampleHead (some "rec") (some "cb") "u").state
            [[1, 2], [3]]).2
      ++ (Record.stopRecord
            (Record.feedAll (Record.startRecord (Record.init true) sampleHead (some "rec") (some "cb") "u").state
              [[1, 2], [3]]).1).events
      = [Event.callbackInvoked ((some "rec").getD defaultRecordName) ([[1, 2], [3]] : List (List Nat)).flatten]
    ∧ (Record.stopRecord
         (Record.feedAll (Record.startRecord (Record.init true) sampleHead (some "rec") (some "cb") "u").state
           [[1, 2], [3]]).1).result
      = .ok ((some "rec").getD defaultRecordName, ([[1, 2], [3]] : List (List Nat)).flatten)
    ∧ (([[1, 2], [3]] : List (List Nat)).flatten).length
      = (([[1, 2], [3]] : List (List Nat)).map List.length).sum :=
  spec_C1_record_run_callback_once true sampleHead (some "rec") "cb" "u"
    [[1, 2], [3]] ("ps", "h264", "aac", "44100") rfl

/-- C5: stopRecord outside the Recording state fails with
`NotRecordingError`, invokes no callback, and leaves the recorder
state unchanged. -/
theorem spec_C5_stop_without_start (r : RecordState)
    (h : r.sessionState ≠ .Recording) :
    Record.stopRecord r =
      { state := r, result := .error RecordError.NotRecordingError, events := [] } := by
  simp [Record.stopRecord, h]

/-- C5 witness: stopping a freshly-constructed (idle) recorder. -/
theorem spec_C5_stop_without_start_witness :
    Record.stopRecord (Record.init true) =
      { state := Record.init true
      , result := .error RecordError.NotRecordingError
      , events := [] } :=
  spec_C5_stop_without_start (Record.init true) (by decide)

/-- C8: startRecord on a non-idle facade fails with
`AlreadyActiveError`, leaving the existing session untouched. -/
theorem spec_C8_start_while_active (r : RecordState) (head : List Nat)
    (name : Option String) (cb : Option String) (uuid : String)
    (h : r.sessionState ≠ .Idle) :
    Record.startRecord r head name cb uuid =
      { state := r, result := .error RecordError.AlreadyActiveError, events := [] } := by
  simp [Record.startRecord, h]

/-- C8 witness: starting again on a live recording session. -/
theorem spec_C8_start_while_active_witness :
    Record.startRecord sampleRecordingState sampleHead none none "u2" =
      { state := sampleRecordingState
      , result := .error RecordError.AlreadyActiveError
      , events := [] } :=
  spec_C8_start_while_active sampleRecordingState sampleHead none none "u2" (by decide)

/-- C7: on every successful stopRecord the completion callback fires
exactly once with the file name and the finalized artifact, and it
never fires on any failure path (failed stop, start, or input). -/
theorem spec_C7_callback_contract (r : RecordState) (cbId : String)
    (hcb : r.callback = some cbId) :
    (∀ fname artifact, (Record.stopRecord r).result = .ok (fname, artifact) →
        (Record.stopRecord r).events = [Event.callbackInvoked fname artifact])
    ∧ (∀ e, (Record.stopRecord r).result = .error e →
        (Record.stopRecord r).events = [])
    ∧ (∀ head name cb uuid,
        (Record.startRecord r head name cb uuid).events.filter Event.isCallback = [])
    ∧ (∀ chunk,
        (Record.inputData r chunk).events.filter Event.isCallback = []) := by
  refine ⟨?_, ?_, ?_, ?_⟩
  · intro fname artifact h
    by_cases hrec : r.sessionState = .Recording
    · rcases hdr : r.buffer.seal.drain with ⟨b', res⟩
      cases res with
      | ok artifact' =>
          simp only [Record.stopRecord, hrec, if_true, hdr, Except.ok.injEq] at h ⊢
          obtain ⟨hf, ha⟩ := Prod.mk.injEq .. ▸ h
          rw [hcb, ← hf, ← ha]
      | error e =>
          simp [Record.stopRecord, hrec, hdr] at h
    · simp [Record.stopRecord, hrec] at h
  · intro e h
    by_cases hrec : r.sessionState = .Recording
    · rcases hdr : r.buffer.seal.drain with ⟨b', res⟩
      cases res with
      | ok artifact' => simp [Record.stopRecord, hrec, hdr] at h
      | error e' => simp [Record.stopRecord, hrec, hdr]
    · simp [Record.stopRecord, hrec]
  · intro head name cb uuid
    by_cases hid : r.sessionState = .Idle
    · cases hv : HeadCodec.validate head <;> simp [Record.startRecord, hid, hv]
    · simp [Record.startRecord, hid]
  · intro chunk
    by_cases hrec : r.sessionState = .Recording
    · rcases hap : r.buffer.append chunk with ⟨b', res⟩
      cases res <;> simp [Record.inputData, hrec, hap, Event.isCallback]
    · simp [Record.inputData, hrec, Event.isCallback]

/-- C7 witness: a live session with a registered callback; stopping it
fires the callback once, and the failure paths fire none. -/
theorem spec_C7_callback_contract_witness :
    (Record.stopRecord sampleRecordingState).events
      = [Event.callbackInvoked "rec" []]
    ∧ (Record.startRecord sampleRecordingState sampleHead none none "u2").events.filter
        Event.isCallback = []
    ∧ (Record.inputData sampleRecordingState [9]).events.filter Event.isCallback = [] := by
  obtain ⟨h1, _, h3, h4⟩ := spec_C7_callback_contract sampleRecordingState "cb" rfl
  exact ⟨h1 "rec" [] rfl, h3 sampleHead none none "u2", h4 [9]⟩

/-- C9: destroy is callable from every session state, always lands in
the terminal released state with the buffer released and the callback
cleared, and is idempotent (any number of destroys after the first
leave the same released state). -/
theorem spec_C9_destroy_idempotent (r : RecordState) :
    (Record.destroy r).sessionState = .Released
    ∧ (Record.destroy r).szStorageUUID = none
    ∧ (Record.destroy r).callback = none
    ∧ (Record.destroy r).buffer = StorageBuffer.new
    ∧ Record.destroy (Record.destroy r) = Record.destroy r
    ∧ ∀ n : Nat, Record.destroy^[n + 1] r = Record.destroy r := by
  refine ⟨rfl, rfl, rfl, rfl, rfl, ?_⟩
  intro n
  induction n with
  | zero => rw [Function.iterate_one]
  | succ n ih =>
      rw [Function.iterate_succ_apply', ih]
      rfl

/-- Every public facade operation preserves the structural invariant. -/
theorem applyOp_preserves_inv (r : RecordState) (op : RecOp)
    (h : RecordInv r) : RecordInv (r.applyOp op) := by
  obtain ⟨h1, h2⟩ := h
  cases op with
  | start head name cb uuid =>
      by_cases hid : r.sessionState = .Idle
      · cases hv : HeadCodec.validate head with
        | ok d =>
            simp [RecordState.applyOp, Record.startRecord, hid, hv, RecordInv,
              StorageBuffer.new]
        | error e =>
            have hsame : r.applyOp (.start head name cb uuid) = r := by
              simp [RecordState.applyOp, Record.startRecord, hid, hv]
            rw [hsame]
            exact ⟨h1, h2⟩
      · have hsame : r.applyOp (.start head name cb uuid) = r := by
          simp [RecordState.applyOp, Record.startRecord, hid]
        rw [hsame]
        exact ⟨h1, h2⟩
  | input chunk =>
      by_cases hrec : r.sessionState = .Recording
      · obtain ⟨hs, hd⟩ := h2 hrec
        rw [RecordState.applyOp, Record.inputData,
          StorageBuffer.append_unsealed r.buffer chunk hs]
        simp only [hrec, if_true]
        exact ⟨by simpa [hrec] using h1, fun _ => ⟨rfl, hd⟩⟩
      · have hsame : r.applyOp (.input chunk) = r := by
          simp [RecordState.applyOp, Record.inputData, hrec]
        rw [hsame]
        exact ⟨h1, h2⟩
  | stop =>
      by_cases hrec : r.sessionState = .Recording
      · obtain ⟨hs, hd⟩ := h2 hrec
        have hdr : r.buffer.seal.drain =
            ({ r.buffer.seal with chunks := [], drained := true },
             .ok r.buffer.seal.chunks.flatten) := by
          simp [StorageBuffer.seal, StorageBuffer.drain, hd]
        rw [RecordState.applyOp, Record.stopRecord]
        simp only [hrec, if_true, hdr]
        exact ⟨by simp, by simp⟩
      · have hsame : r.applyOp .stop = r := by
          simp [RecordState.applyOp, Record.stopRecord, hrec]
        rw [hsame]
        exact ⟨h1, h2⟩
  | destroy =>
      simp [RecordState.applyOp, Record.destroy, RecordInv]

/-- The invariant holds after any sequence of public operations. -/
theorem foldl_preserves_inv (ops : List RecOp) :
    ∀ r : RecordState, RecordInv r →
      RecordInv (ops.foldl RecordState.applyOp r) := by
  induction ops with
  | nil => intro r h; exact h
  | cons op ops ih =>
      intro r h
      exact ih _ (applyOp_preserves_inv r op h)

/-- The freshly-constructed facade satisfies the invariant. -/
theorem init_inv (dl : Bool) : RecordInv (Record.init dl) := by
  constructor
  · simp [Record.init]
  · intro h
    simp [Record.init] at h

/-- C10: `szStorageUUID` is null exactly when no recording session is
active — null after construction, set to the generated session
identifier by a successful startRecord, and reset to null by
stopRecord completion or destroy; the null-iff-inactive invariant
holds after every sequence of public operations. -/
theorem spec_C10_uuid_null_iff_inactive (dl : Bool) (ops : List RecOp) :
    ((ops.foldl RecordState.applyOp (Record.init dl)).szStorageUUID = none
      ↔ (ops.foldl RecordState.applyOp (Record.init dl)).sessionState ≠ .Recording)
    ∧ (Record.init dl).szStorageUUID = none
    ∧ (∀ (r : RecordState) (head : List Nat) (name : Option String)
         (cb : Option String) (uuid u : String),
        (Record.startRecord r head name cb uuid).result = .ok u →
        (Record.startRecord r head name cb uuid).state.szStorageUUID = some uuid)
    ∧ (∀ (r : RecordState) (fa : String × List Nat),
        (Record.stopRecord r).result = .ok fa →
        (Record.stopRecord r).state.szStorageUUID = none)
    ∧ (∀ r : RecordState, (Record.destroy r).szStorageUUID = none) := by
  refine ⟨?_, rfl, ?_, ?_, fun r => rfl⟩
  · have hInv := foldl_preserves_inv ops (Record.init dl) (init_inv dl)
    obtain ⟨h1, _⟩ := hInv
    constructor
    · intro h0 hrec
      rw [← h1] at hrec
      rw [h0] at hrec
      simp at hrec
    · intro hne
      cases ho : (ops.foldl RecordState.applyOp (Record.init dl)).szStorageUUID with
      | none => rfl
      | some u =>
          exfalso
          exact hne (h1.mp (by simp [ho]))
  · intro r head name cb uuid u h
    by_cases hid : r.sessionState = .Idle
    · cases hv : HeadCodec.validate head with
      | ok d => simp [Record.startRecord, hid, hv]
      | error e => simp [Record.startRecord, hid, hv] at h
    · simp [Record.startRecord, hid] at h
  · intro r fa h
    by_cases hrec : r.sessionState = .Recording
    · rcases hdr : r.buffer.seal.drain with ⟨b', res⟩
      cases res with
      | ok artifact => simp [Record.stopRecord, hrec, hdr]
      | error e => simp [Record.stopRecord, hrec, hdr] at h
    · simp [Record.stopRecord, hrec] at h

/-- C10 witness: a concrete run (start, one chunk) plus the per-operation
clauses at concrete states. -/
theorem spec_C10_uuid_null_iff_inactive_witness :
    ((([RecOp.start sampleHead (some "rec") (some "cb") "u1",
        RecOp.input [1]] : List RecOp).foldl
          RecordState.applyOp (Record.init true)).szStorageUUID = none
      ↔ (([RecOp.start sampleHead (some "rec") (some "cb") "u1",
           RecOp.input [1]] : List RecOp).foldl
          RecordState.applyOp (Record.init true)).sessionState ≠ .Recording)
    ∧ (Record.init true).szStorageUUID = none
    ∧ (Record.startRecord (Record.init true) sampleHead none none "u2").state.szStorageUUID
        = some "u2"
    ∧ (Record.stopRecord sampleRecordingState).state.szStorageUUID = none
    ∧ (Record.destroy sampleRecordingState).szStorageUUID = none := by
  obtain ⟨h1, h2, h3, h4, h5⟩ := spec_C10_uuid_null_iff_inactive true
    [RecOp.start sampleHead (some "rec") (some "cb") "u1", RecOp.input [1]]
  exact ⟨h1, h2,
    h3 (Record.init true) sampleHead none none "u2" "u2" rfl,
    h4 sampleRecordingState ("rec", []) rfl,
    h5 sampleRecordingState⟩
